import Mathlib

/-!
Verification of `Monitoring_dan_Logging/prometheus_exporter.py`, the
model-serving metrics exporter.

The Python module is shallowly embedded: numeric values are modelled by `ℚ`,
the four Prometheus series by a `Metrics` record, one invocation of
`collect_metrics` by a pure step function on `Metrics` driven by an explicit
per-cycle input (the availability of the model, the random draws, and the
outcome of `predict`), and the `__main__` startup branch by a function on the
load result.  Python's `random.randint` / `random.uniform` / `random.choice`
are modelled by functions of explicit draws that satisfy the documented
contracts of those primitives.
-/

/-- A loaded MLflow model handle: all the exporter uses is
`predict(features) -> scalar`, which may raise. -/
structure ModelHandle where
  predict : List ℚ → Except String ℚ

/-- The fixed high-sales threshold, `HIGH_SALES_THRESHOLD = 150000.0`
(line 19 of `prometheus_exporter.py`). -/
def HIGH_SALES_THRESHOLD : ℚ := 150000

/-- The four Prometheus series registered at lines 15-18.
`INFERENCE_LATENCY` is a gauge; it is modelled as `Option ℚ` with `none`
meaning the program has never set it (no defined value yet).  The three
counters are modelled as `ℕ`, monotonic by construction. -/
structure Metrics where
  inference_latency_seconds : Option ℚ
  inference_total : ℕ
  inference_errors_total : ℕ
  high_sales_predictions_total : ℕ
deriving Repr, DecidableEq

/-- The registry at process start: no counter incremented, gauge never set. -/
def initialMetrics : Metrics :=
  { inference_latency_seconds := none
    inference_total := 0
    inference_errors_total := 0
    high_sales_predictions_total := 0 }

/-- Python's `random.randint(a, b)`: an integer `N` with `a <= N <= b`,
computed here from an explicit draw `r`. -/
def randint (a b : ℤ) (r : ℕ) : ℤ := a + (r % (b - a + 1).toNat : ℕ)

/-- Python's `random.uniform(a, b)`: `a + (b - a) * u` for a unit draw
`u` in `[0, 1)`. -/
def uniform (a b u : ℚ) : ℚ := a + (b - a) * u

/-- Python's `random.choice(seq)`: the element of `seq` at the drawn index. -/
def choice (seq : List ℤ) (r : ℕ) : ℤ := seq.getD (r % seq.length) 0

/-- The explicit randomness consumed by one cycle's `dummy_data` block
(lines 38-51): one draw per sampled field, in source order.  Integer draws
are arbitrary naturals; `ℚ` draws are unit draws, meaningful in `[0, 1)`. -/
structure RngDraws where
  store : ℕ
  holiday : ℕ
  temperature : ℚ
  fuelPrice : ℚ
  cpi : ℚ
  unemployment : ℚ
  month : ℕ
  year : ℕ
  lag1 : ℚ
  lag2 : ℚ
  lag4 : ℚ

/-- All unit draws of a cycle lie in `[0, 1)`, the contract of
Python's `random.random()` underlying `random.uniform`. -/
def UnitDraws (g : RngDraws) : Prop :=
  (0 ≤ g.temperature ∧ g.temperature < 1) ∧
  (0 ≤ g.fuelPrice ∧ g.fuelPrice < 1) ∧
  (0 ≤ g.cpi ∧ g.cpi < 1) ∧
  (0 ≤ g.unemployment ∧ g.unemployment < 1) ∧
  (0 ≤ g.lag1 ∧ g.lag1 < 1) ∧
  (0 ≤ g.lag2 ∧ g.lag2 < 1) ∧
  (0 ≤ g.lag4 ∧ g.lag4 < 1)

/-- The feature record `df_infer`: the 12 fixed named fields of the schema,
in the order of the `dummy_data` dict (lines 38-51). -/
structure FeatureRecord where
  Store : ℤ
  Holiday_Flag : ℤ
  Temperature : ℚ
  Fuel_Price : ℚ
  CPI : ℚ
  Unemployment : ℚ
  Month : ℤ
  Year : ℤ
  Weekly_Sales_Lag1 : ℚ
  Weekly_Sales_Lag2 : ℚ
  Weekly_Sales_Lag4 : ℚ
  Temperature_Fuel_Interaction : ℚ

/-- The column names of `df_infer`, in the order the `dummy_data` dict
creates them (lines 39-50). -/
def dfColumns : List String :=
  ["Store", "Holiday_Flag", "Temperature", "Fuel_Price", "CPI",
   "Unemployment", "Month", "Year", "Weekly_Sales_Lag1",
   "Weekly_Sales_Lag2", "Weekly_Sales_Lag4", "Temperature_Fuel_Interaction"]

/-- The `dummy_data` block, lines 38-51: each field drawn from its range or
set, with the interaction field created as the `0.0` placeholder. -/
def dummy_data (g : RngDraws) : FeatureRecord :=
  { Store := randint 1 45 g.store
    Holiday_Flag := choice [0, 1] g.holiday
    Temperature := uniform 20 80 g.temperature
    Fuel_Price := uniform 2.5 4.5 g.fuelPrice
    CPI := uniform 200 220 g.cpi
    Unemployment := uniform 5 10 g.unemployment
    Month := randint 1 12 g.month
    Year := choice [2010, 2011, 2012] g.year
    Weekly_Sales_Lag1 := uniform 50000 200000 g.lag1
    Weekly_Sales_Lag2 := uniform 50000 200000 g.lag2
    Weekly_Sales_Lag4 := uniform 50000 200000 g.lag4
    Temperature_Fuel_Interaction := 0 }

/-- Lines 55-58: if both `Temperature` and `Fuel_Price` are columns of the
frame, overwrite the interaction column with their product; otherwise only a
warning is logged and the frame is left as is. -/
def setInteraction (r : FeatureRecord) : FeatureRecord :=
  if "Temperature" ∈ dfColumns ∧ "Fuel_Price" ∈ dfColumns then
    { r with Temperature_Fuel_Interaction := r.Temperature * r.Fuel_Price }
  else r

/-- The record `df_infer` exactly as passed to `loaded_model.predict`
(line 64): the sampled record after the interaction overwrite. -/
def df_infer (g : RngDraws) : FeatureRecord := setInteraction (dummy_data g)

/-- The sequence of field assignments performed on the feature record before
`predict` is called: the 12 dict entries in order, then the line-56 overwrite
of the interaction column.  Its last element is the last field fixed before
the model is invoked. -/
def assignmentSequence : List String :=
  dfColumns ++ ["Temperature_Fuel_Interaction"]

/-- What `loaded_model.predict(df_infer)` delivers in a given cycle: either a
scalar prediction together with the measured wall-clock latency of the call,
or an exception. -/
inductive PredictOutcome where
  | ok (value : ℚ) (latency : ℚ)
  | err
deriving Repr, DecidableEq

/-- The environment of one invocation of `collect_metrics`: either the model
was never loaded (`loaded_model is None`), or it is loaded and the cycle has
its random draws and its `predict` outcome. -/
inductive CycleInput where
  | unavailable
  | available (g : RngDraws) (outcome : PredictOutcome)

/-- The observable actions of one invocation of `collect_metrics`, in
program order. -/
inductive Event where
  | generateFeatures
  | computeInteraction
  | recordStartTime
  | callPredict
  | recordEndTime
  | setLatencyGauge
  | incInference
  | incHighSales
  | incError
deriving Repr, DecidableEq

/-- `collect_metrics` (lines 31-83) as a step function: given the registry
state and the cycle's input, it returns the new registry state and the list of
actions taken, in order.
  * `loaded_model is None` (lines 32-35): increment the error counter and
    return at once.
  * Otherwise build `dummy_data`, overwrite the interaction column, record
    `start_time`, and call `predict` inside `try`.
  * On success (lines 64-77): record `end_time`, set the latency gauge,
    increment `inference_total`, and increment the high-sales counter exactly
    when the prediction strictly exceeds `HIGH_SALES_THRESHOLD`.
  * On an exception from `predict` (lines 79-83): the `except` clause absorbs
    it and increments only the error counter. -/
def collect_metrics (m : Metrics) : CycleInput → Metrics × List Event
  | .unavailable =>
      ({ m with inference_errors_total := m.inference_errors_total + 1 },
       [.incError])
  | .available _ (.ok v latency) =>
      ({ m with
          inference_latency_seconds := some latency
          inference_total := m.inference_total + 1
          high_sales_predictions_total :=
            m.high_sales_predictions_total +
              (if HIGH_SALES_THRESHOLD < v then 1 else 0) },
       [.generateFeatures, .computeInteraction, .recordStartTime,
        .callPredict, .recordEndTime, .setLatencyGauge, .incInference] ++
         (if HIGH_SALES_THRESHOLD < v then [.incHighSales] else []))
  | .available _ .err =>
      ({ m with inference_errors_total := m.inference_errors_total + 1 },
       [.generateFeatures, .computeInteraction, .recordStartTime,
        .callPredict, .incError])

/-- The registry state after the `while True` loop (lines 92-94) has driven
`collect_metrics` once per element of the given cycle-input list. -/
def runLoop (m : Metrics) : List CycleInput → Metrics
  | [] => m
  | c :: rest => runLoop (collect_metrics m c).1 rest

/-- The registry states observed after each completed cycle of the loop: one
entry per cycle, in order.  Its length counts the completed cycles. -/
def statesAfter (m : Metrics) : List CycleInput → List Metrics
  | [] => []
  | c :: rest =>
      let m' := (collect_metrics m c).1
      m' :: statesAfter m' rest

/-- The `__main__` branch (lines 86-96): either the HTTP listener is bound on
port 8000 and the loop starts, or a critical message is logged and the process
ends without ever binding a listener. -/
inductive MainOutcome where
  | serving
  | fatalExit
deriving Repr, DecidableEq

/-- Lines 86-96: `if loaded_model:` start the exporter and loop forever,
`else` log critical and fall off the end of the script. -/
def mainStartup (loaded_model : Option ModelHandle) : MainOutcome :=
  match loaded_model with
  | some _ => .serving
  | none => .fatalExit

/-- Whether the metrics endpoint's HTTP listener is ever bound, given the
result of the single startup load attempt (lines 22-28). -/
def serverStarted (loaded_model : Option ModelHandle) : Bool :=
  match mainStartup loaded_model with
  | .serving => true
  | .fatalExit => false

/-- The sleep between cycles, `time.sleep(5)` at line 94. -/
def CYCLE_SLEEP_SECONDS : ℚ := 5

/-- The start time of the n-th cycle of the `while True` loop, given each
cycle's duration: the loop body runs `collect_metrics` to completion and only
then sleeps 5 time units, so the next cycle starts `dur n + 5` after the n-th
cycle started. -/
def cycleStart (dur : ℕ → ℚ) : ℕ → ℚ
  | 0 => 0
  | n + 1 => cycleStart dur n + dur n + CYCLE_SLEEP_SECONDS

/-- The documented per-field ranges of the sampled schema: store id 1-45,
holiday flag 0 or 1, temperature 20-80, fuel price 2.5-4.5, CPI 200-220,
unemployment 5-10, month 1-12, year in 2010/2011/2012, lagged sales
50000-200000 each. -/
def SchemaInRange (r : FeatureRecord) : Prop :=
  (1 ≤ r.Store ∧ r.Store ≤ 45) ∧
  (r.Holiday_Flag = 0 ∨ r.Holiday_Flag = 1) ∧
  (20 ≤ r.Temperature ∧ r.Temperature ≤ 80) ∧
  (2.5 ≤ r.Fuel_Price ∧ r.Fuel_Price ≤ 4.5) ∧
  (200 ≤ r.CPI ∧ r.CPI ≤ 220) ∧
  (5 ≤ r.Unemployment ∧ r.Unemployment ≤ 10) ∧
  (1 ≤ r.Month ∧ r.Month ≤ 12) ∧
  (r.Year = 2010 ∨ r.Year = 2011 ∨ r.Year = 2012) ∧
  (50000 ≤ r.Weekly_Sales_Lag1 ∧ r.Weekly_Sales_Lag1 ≤ 200000) ∧
  (50000 ≤ r.Weekly_Sales_Lag2 ∧ r.Weekly_Sales_Lag2 ≤ 200000) ∧
  (50000 ≤ r.Weekly_Sales_Lag4 ∧ r.Weekly_Sales_Lag4 ≤ 200000)

/-- A concrete draw vector: every integer draw `0`, every unit draw `0`. -/
def rngEx : RngDraws :=
  { store := 0, holiday := 0, temperature := 0, fuelPrice := 0, cpi := 0
    unemployment := 0, month := 0, year := 0, lag1 := 0, lag2 := 0, lag4 := 0 }

/-! ## Helper lemmas -/

lemma randint_bounds (a b : ℤ) (r : ℕ) (hab : a ≤ b) :
    a ≤ randint a b r ∧ randint a b r ≤ b := by
  unfold randint
  have hpos : (0:ℤ) < b - a + 1 := by omega
  have hmod : (r % (b - a + 1).toNat) < (b - a + 1).toNat :=
    Nat.mod_lt _ (by omega)
  have hcast : ((b - a + 1).toNat : ℤ) = b - a + 1 := Int.toNat_of_nonneg (by omega)
  have hlt : ((r % (b - a + 1).toNat : ℕ) : ℤ) < ((b - a + 1).toNat : ℤ) :=
    Int.ofNat_lt.mpr hmod
  have hnn : (0:ℤ) ≤ ((r % (b - a + 1).toNat : ℕ) : ℤ) := Int.ofNat_nonneg _
  omega

lemma uniform_bounds (a b u : ℚ) (hab : a ≤ b) (h0 : 0 ≤ u) (h1 : u < 1) :
    a ≤ uniform a b u ∧ uniform a b u ≤ b := by
  unfold uniform
  constructor
  · nlinarith
  · nlinarith

lemma collect_metrics_cycle_count (m : Metrics) (c : CycleInput) :
    (collect_metrics m c).1.inference_total + (collect_metrics m c).1.inference_errors_total
      = m.inference_total + m.inference_errors_total + 1 := by
  rcases c with _ | ⟨g, v, l⟩
  · simp [collect_metrics]; omega
  · simp [collect_metrics]; omega
  · simp [collect_metrics]; omega

lemma runLoop_cycle_count (trace : List CycleInput) :
    ∀ m : Metrics,
      (runLoop m trace).inference_total + (runLoop m trace).inference_errors_total
        = m.inference_total + m.inference_errors_total + trace.length := by
  induction trace with
  | nil => intro m; simp [runLoop]
  | cons c rest ih =>
      intro m
      have hstep := collect_metrics_cycle_count m c
      simp only [runLoop, List.length_cons]
      rw [ih]
      omega

lemma statesAfter_length (trace : List CycleInput) :
    ∀ m : Metrics, (statesAfter m trace).length = trace.length := by
  induction trace with
  | nil => intro m; simp [statesAfter]
  | cons c rest ih => intro m; simp [statesAfter, ih]

lemma collect_metrics_high_le (m : Metrics) (c : CycleInput) :
    (collect_metrics m c).1.high_sales_predictions_total
      ≤ m.high_sales_predictions_total + 1 ∧
    (collect_metrics m c).1.high_sales_predictions_total
        - m.high_sales_predictions_total
      ≤ (collect_metrics m c).1.inference_total - m.inference_total := by
  rcases c with _ | ⟨g, v, l⟩
  · simp [collect_metrics]
  · constructor
    · simp [collect_metrics]
      split <;> omega
    · simp [collect_metrics]
      split <;> omega
  · simp [collect_metrics]

lemma runLoop_high_le (trace : List CycleInput) :
    ∀ m : Metrics,
      m.high_sales_predictions_total ≤ m.inference_total →
      (runLoop m trace).high_sales_predictions_total
        ≤ (runLoop m trace).inference_total := by
  induction trace with
  | nil => intro m h; simpa [runLoop] using h
  | cons c rest ih =>
      intro m h
      simp only [runLoop]
      apply ih
      rcases c with _ | ⟨g, v, l⟩
      · simpa [collect_metrics] using h
      · simp [collect_metrics]
        split <;> omega
      · simpa [collect_metrics] using h

/-! ## Claim theorems -/

/-- C1: every completed invocation of `collect_metrics` increments exactly one
of `inference_total` and `inference_errors_total`, so after any N completed
cycles (any mix of successes, predict failures, and model-unavailable cycles)
the two counters sum to N. -/
theorem spec_C1 (trace : List CycleInput) :
    (runLoop initialMetrics trace).inference_total
      + (runLoop initialMetrics trace).inference_errors_total
      = trace.length := by
  have h := runLoop_cycle_count trace initialMetrics
  simpa [initialMetrics] using h

/-- C2: with the model loaded, a cycle whose `predict` call raises does not
propagate the exception out of `collect_metrics`: the step returns normally
with `inference_errors_total` incremented and every other metric unchanged,
and the loop completes every one of its cycles regardless of the mix of
outcomes. -/
theorem spec_C2 (m : Metrics) (g : RngDraws) :
    (collect_metrics m (.available g .err)).1
        = { m with inference_errors_total := m.inference_errors_total + 1 } ∧
    (collect_metrics m (.available g .err)).1.inference_total
        = m.inference_total ∧
    (collect_metrics m (.available g .err)).1.inference_latency_seconds
        = m.inference_latency_seconds ∧
    (collect_metrics m (.available g .err)).1.high_sales_predictions_total
        = m.high_sales_predictions_total ∧
    ∀ trace : List CycleInput,
      (statesAfter initialMetrics trace).length = trace.length := by
  refine ⟨rfl, rfl, rfl, rfl, fun trace => statesAfter_length trace initialMetrics⟩

/-- C3: in a successful cycle `high_sales_predictions_total` is incremented
exactly when the predicted value strictly exceeds `HIGH_SALES_THRESHOLD`; at
exactly the threshold it is unchanged, and failed cycles (predict raised, or
model unavailable) never increment it. -/
theorem spec_C3 (m : Metrics) (g : RngDraws) (v l : ℚ) :
    (collect_metrics m (.available g (.ok v l))).1.high_sales_predictions_total
        = m.high_sales_predictions_total
            + (if HIGH_SALES_THRESHOLD < v then 1 else 0) ∧
    (collect_metrics m
        (.available g (.ok HIGH_SALES_THRESHOLD l))).1.high_sales_predictions_total
        = m.high_sales_predictions_total ∧
    (collect_metrics m (.available g .err)).1.high_sales_predictions_total
        = m.high_sales_predictions_total ∧
    (collect_metrics m .unavailable).1.high_sales_predictions_total
        = m.high_sales_predictions_total := by
  refine ⟨rfl, ?_, rfl, rfl⟩
  simp [collect_metrics]

/-- C4: in every cycle, the record passed to `predict` has its interaction
field equal to its temperature times its fuel price exactly, overriding the
`0.0` placeholder it was created with, and the interaction column is the last
field assigned before the model is called. -/
theorem spec_C4 (g : RngDraws) :
    (df_infer g).Temperature_Fuel_Interaction
        = (df_infer g).Temperature * (df_infer g).Fuel_Price ∧
    (dummy_data g).Temperature_Fuel_Interaction = 0 ∧
    assignmentSequence.getLast? = some "Temperature_Fuel_Interaction" := by
  refine ⟨?_, rfl, by decide⟩
  simp [df_infer, setInteraction, dfColumns]

/-- C5: the HTTP listener is bound if and only if the model loaded at startup;
on a failed load the process takes the fatal-exit branch and the listener is
never bound. -/
theorem spec_C5 :
    serverStarted none = false ∧
    mainStartup none = MainOutcome.fatalExit ∧
    ∀ h : ModelHandle,
      serverStarted (some h) = true ∧ mainStartup (some h) = MainOutcome.serving := by
  exact ⟨rfl, rfl, fun h => ⟨rfl, rfl⟩⟩

/-- C6: when the model handle is unavailable, `collect_metrics` increments
only the error counter and returns at once: its action list is exactly one
error increment, with no feature generation, no timing measurement and no
predict call. -/
theorem spec_C6 (m : Metrics) :
    collect_metrics m CycleInput.unavailable
        = ({ m with inference_errors_total := m.inference_errors_total + 1 },
           [Event.incError]) ∧
    Event.generateFeatures ∉ (collect_metrics m CycleInput.unavailable).2 ∧
    Event.recordStartTime ∉ (collect_metrics m CycleInput.unavailable).2 ∧
    Event.callPredict ∉ (collect_metrics m CycleInput.unavailable).2 := by
  refine ⟨rfl, ?_, ?_, ?_⟩ <;> simp [collect_metrics]

/-- C7: the latency gauge is overwritten with the measured duration on every
successful cycle, is left unchanged by a failed or model-unavailable cycle,
and has no value before the first successful cycle. -/
theorem spec_C7 (m : Metrics) (g : RngDraws) (v l : ℚ) :
    (collect_metrics m (.available g (.ok v l))).1.inference_latency_seconds
        = some l ∧
    (collect_metrics m (.available g .err)).1.inference_latency_seconds
        = m.inference_latency_seconds ∧
    (collect_metrics m .unavailable).1.inference_latency_seconds
        = m.inference_latency_seconds ∧
    initialMetrics.inference_latency_seconds = none := by
  exact ⟨rfl, rfl, rfl, rfl⟩

/-- C8 counterexample: the interval between consecutive cycle starts is NOT a
fixed 5 time units measured start-to-start.  With every cycle lasting 1 time
unit, the gap between the starts of cycle 0 and cycle 1 is 6, not 5: the loop
sleeps 5 units after a cycle completes, so a slow cycle lengthens the
start-to-start spacing instead of shortening the idle gap. -/
theorem spec_C8_counterexample :
    cycleStart (fun _ => 1) 1 - cycleStart (fun _ => 1) 0 = 6 ∧
    (6 : ℚ) ≠ CYCLE_SLEEP_SECONDS := by
  constructor
  · norm_num [cycleStart, CYCLE_SLEEP_SECONDS]
  · norm_num [CYCLE_SLEEP_SECONDS]

/-- C8 (amended): the loop sleeps a fixed 5 time units measured from the
completion of one cycle to the start of the next, so the start-to-start
spacing is the cycle's duration plus 5; consecutive cycles never overlap (the
next start is strictly after the previous cycle's end), and for a nonnegative
duration the starts are strictly increasing. -/
theorem spec_C8 (dur : ℕ → ℚ) (n : ℕ) (h : 0 ≤ dur n) :
    cycleStart dur (n + 1) = cycleStart dur n + dur n + CYCLE_SLEEP_SECONDS ∧
    cycleStart dur n + dur n < cycleStart dur (n + 1) ∧
    cycleStart dur n < cycleStart dur (n + 1) := by
  refine ⟨rfl, ?_, ?_⟩
  · simp only [cycleStart, CYCLE_SLEEP_SECONDS]
    linarith
  · simp only [cycleStart, CYCLE_SLEEP_SECONDS]
    linarith

/-- C8 witness: the amended statement at the constant duration 1 and n = 0. -/
theorem spec_C8_witness :
    cycleStart (fun _ => (1 : ℚ)) (0 + 1)
        = cycleStart (fun _ => (1 : ℚ)) 0 + 1 + CYCLE_SLEEP_SECONDS ∧
    cycleStart (fun _ => (1 : ℚ)) 0 + 1 < cycleStart (fun _ => (1 : ℚ)) (0 + 1) ∧
    cycleStart (fun _ => (1 : ℚ)) 0 < cycleStart (fun _ => (1 : ℚ)) (0 + 1) :=
  spec_C8 (fun _ => 1) 0 (by norm_num)

/-- C9: every feature record produced by the generator has exactly the 12
named columns of the schema, and whenever the unit draws respect the
`random.random()` contract, every sampled field lies in its documented range:
store id 1-45, holiday flag 0 or 1, temperature in [20, 80], fuel price in
[2.5, 4.5], CPI in [200, 220], unemployment in [5, 10], month 1-12, year in
the fixed set 2010/2011/2012, and each lagged-sales field in
[50000, 200000]. -/
theorem spec_C9 (g : RngDraws) (h : UnitDraws g) :
    SchemaInRange (dummy_data g) ∧ dfColumns.length = 12 := by
  obtain ⟨ht, hf, hc, hu, h1, h2, h4⟩ := h
  refine ⟨⟨?_, ?_, ?_, ?_, ?_, ?_, ?_, ?_, ?_, ?_, ?_⟩, by decide⟩
  · exact randint_bounds 1 45 g.store (by norm_num)
  · have hm : g.holiday % 2 = 0 ∨ g.holiday % 2 = 1 := Nat.mod_two_eq_zero_or_one _
    rcases hm with hm | hm <;> simp [dummy_data, choice, hm]
  · exact uniform_bounds 20 80 g.temperature (by norm_num) ht.1 ht.2
  · exact uniform_bounds 2.5 4.5 g.fuelPrice (by norm_num) hf.1 hf.2
  · exact uniform_bounds 200 220 g.cpi (by norm_num) hc.1 hc.2
  · exact uniform_bounds 5 10 g.unemployment (by norm_num) hu.1 hu.2
  · exact randint_bounds 1 12 g.month (by norm_num)
  · have hm : g.year % 3 = 0 ∨ g.year % 3 = 1 ∨ g.year % 3 = 2 := by omega
    rcases hm with hm | hm | hm <;> simp [dummy_data, choice, hm]
  · exact uniform_bounds 50000 200000 g.lag1 (by norm_num) h1.1 h1.2
  · exact uniform_bounds 50000 200000 g.lag2 (by norm_num) h2.1 h2.2
  · exact uniform_bounds 50000 200000 g.lag4 (by norm_num) h4.1 h4.2

/-- C9 witness: the all-zero draw vector satisfies the unit-draw contract and
yields an in-range schema record. -/
theorem spec_C9_witness :
    UnitDraws rngEx ∧ (SchemaInRange (dummy_data rngEx) ∧ dfColumns.length = 12) :=
  ⟨by norm_num [UnitDraws, rngEx], spec_C9 rngEx (by norm_num [UnitDraws, rngEx])⟩

/-- C10: at every point of the process lifetime the high-sales counter is at
most the inference counter: after any cycle trace from process start,
`high_sales_predictions_total` is bounded by `inference_total`, and no single
cycle can increment the high-sales counter more than once. -/
theorem spec_C10 :
    (∀ trace : List CycleInput,
        (runLoop initialMetrics trace).high_sales_predictions_total
          ≤ (runLoop initialMetrics trace).inference_total) ∧
    ∀ (m : Metrics) (c : CycleInput),
      (collect_metrics m c).1.high_sales_predictions_total
        ≤ m.high_sales_predictions_total + 1 := by
  constructor
  · intro trace
    exact runLoop_high_le trace initialMetrics (by simp [initialMetrics])
  · intro m c
    exact (collect_metrics_high_le m c).1
